import Mathlib

/-!
Verification of terraform-provider-packer: the `packer_image` resource.

A shallow embedding of `provider/resource_packer_image.go`: the parameter
builders (`getDir`, `getFileParam`, the argument vectors of `packerInit` and
`packerBuild`), the identity and version stamping of `updateState`, and the
lifecycle operations `Create`, `Read`, `Update` and `Delete`.

Effects are made explicit.  The three external collaborators of the file
(the command runner, the environment composer and the UUID generator) are
fields of a `Host` record, and every operation threads an `Effects` value
that logs the subprocess invocations performed and counts the UUIDs drawn.
-/

namespace PackerProvider

/-! ## Framework value types -/

/-- The framework value `types.String`: a struct of the two flags `Unknown`
and `Null` and the Go string `Value`.  The Go zero value has both flags false
and the empty string. -/
structure TFString where
  Unknown : Bool := false
  Null : Bool := false
  Value : String := ""
deriving DecidableEq, Repr

/-- The framework value `types.Bool`, with the same two flags. -/
structure TFBool where
  Unknown : Bool := false
  Null : Bool := false
  Value : Bool := false
deriving DecidableEq, Repr

/-- The framework documents `Value` as meaningful only when both flags are
false; a null or unknown value decoded by the framework carries the zero
value, the empty string. -/
def TFString.WellFormed (s : TFString) : Prop :=
  (s.Null = true ∨ s.Unknown = true) → s.Value = ""

instance (s : TFString) : Decidable s.WellFormed := by
  unfold TFString.WellFormed; infer_instance

/-- A Go `map[string]string`, given as its entries in the order in which a
`range` loop visits them.  Go leaves that order unspecified: two maps with the
same content are two entry lists that are permutations of one another. -/
abbrev GoMap := List (String × String)

/-- A Go `map[string]string` that this file never ranges over and only hands
on whole: the list stands for the map value, in one fixed listing of its
entries, so equal lists are equal maps. -/
abbrev GoMapValue := List (String × String)

/-- The Go struct `resourceImageType` (lines 23-35).  `Variables` is ranged
over by `packerBuild` and is listed in visiting order; `Environment` and
`Triggers` are never ranged over here. -/
structure resourceImageType where
  ID : TFString := {}
  Variables : GoMap := []
  AdditionalParams : List String := []
  Directory : TFString := {}
  File : TFString := {}
  Environment : GoMapValue := []
  IgnoreEnvironment : TFBool := {}
  Triggers : GoMapValue := []
  Force : TFBool := {}
  BuildUUID : TFString := {}
  Name : TFString := {}
deriving DecidableEq, Repr

/-! ## External collaborators and effects -/

/-- One call of `cmds.RunCommandInDirWithEnvReturnOutput(exe, dir, env, params...)`. -/
structure Invocation where
  exe : String
  dir : String
  env : GoMapValue
  params : List String
deriving DecidableEq, Repr

/-- What the command runner returns: the captured output and the Go `error`
(`none` is `nil`, `some msg` an error whose `Error()` is `msg`). -/
structure CmdResult where
  output : String
  err : Option String
deriving DecidableEq, Repr

/-- The collaborators the file calls but does not define.
* `exe`: the result of `os.Executable()`;
* `EnvVars`: `packer_interop.EnvVars`, applied to the declared environment and
  the pass-through flag;
* `RunCommand`: the command runner; its answer may depend on the invocations
  made before (the subprocess is a black box acting on the outside world);
* `NewRandom`: the string of the `n`-th UUID that `uuid.NewRandom` yields. -/
structure Host where
  exe : String
  EnvVars : GoMapValue → Bool → GoMapValue
  RunCommand : List Invocation → Invocation → CmdResult
  NewRandom : Nat → String

/-- The observable effects of an operation: the subprocess invocations made so
far, oldest first, and the number of UUIDs drawn from the generator. -/
structure Effects where
  calls : List Invocation := []
  draws : Nat := 0
deriving DecidableEq, Repr

/-- An error diagnostic, as appended by `resp.Diagnostics.AddError(summary, detail)`. -/
structure Diagnostic where
  summary : String
  detail : String
deriving DecidableEq, Repr

/-- What an operation did to `resp.State`: left it alone, called
`resp.State.Set` with a record, or called `resp.State.RemoveResource`. -/
inductive StateWrite where
  | untouched
  | set (rs : resourceImageType)
  | removed
deriving DecidableEq, Repr

/-- The response of a lifecycle operation. -/
structure Response where
  Diagnostics : List Diagnostic := []
  State : StateWrite := StateWrite.untouched
deriving DecidableEq, Repr

/-- The message of `errors.Wrap(err, msg)` of `github.com/pkg/errors`:
the message, a colon and a blank, then the message of the wrapped error. -/
def Wrap (err msg : String) : String := msg ++ ": " ++ err

/-- Draws one UUID string: `uuid.Must(uuid.NewRandom()).String()`. -/
def newUUIDString (h : Host) (fx : Effects) : String × Effects :=
  (h.NewRandom fx.draws, { fx with draws := fx.draws + 1 })

/-- Runs one command: asks the runner and logs the invocation. -/
def runCommand (h : Host) (inv : Invocation) (fx : Effects) : CmdResult × Effects :=
  (h.RunCommand fx.calls inv, { fx with calls := fx.calls ++ [inv] })

/-! ## Parameter builders -/

/-- Go function `getDir` (lines 112-118). -/
def getDir (dir : TFString) : String :=
  let dirVal := dir.Value
  if dir.Unknown || dirVal.length == 0 then "." else dirVal

/-- Go function `getFileParam` (lines 120-126). -/
def getFileParam (resourceState : resourceImageType) : String :=
  if resourceState.File.Null || resourceState.File.Value.length == 0 then "."
  else resourceState.File.Value

/-- The argument vector `params` that `packerInit` builds (lines 131-132). -/
def packerInitParams (resourceState : resourceImageType) : List String :=
  let params := ["init"]
  params ++ [getFileParam resourceState]

/-- The argument vector `params` that `packerBuild` builds (lines 147-155).
The `range` loop over `Variables` is a left fold over the entries in
iteration order, each step appending two elements. -/
def packerBuildParams (resourceState : resourceImageType) : List String :=
  let params := ["build"]
  let params := resourceState.Variables.foldl
    (fun params kv => params ++ ["-var", kv.1 ++ "=" ++ kv.2]) params
  let params := if resourceState.Force.Value then params ++ ["-force"] else params
  let params := params ++ [getFileParam resourceState]
  params ++ resourceState.AdditionalParams

/-- The call that `packerInit` makes (lines 129-135). -/
def packerInitInvocation (h : Host) (resourceState : resourceImageType) : Invocation :=
  let envVars := h.EnvVars resourceState.Environment (!resourceState.IgnoreEnvironment.Value)
  { exe := h.exe, dir := getDir resourceState.Directory, env := envVars,
    params := packerInitParams resourceState }

/-- The call that `packerBuild` makes (lines 145-158). -/
def packerBuildInvocation (h : Host) (resourceState : resourceImageType) : Invocation :=
  let envVars := h.EnvVars resourceState.Environment (!resourceState.IgnoreEnvironment.Value)
  { exe := h.exe, dir := getDir resourceState.Directory, env := envVars,
    params := packerBuildParams resourceState }

/-- Go function `packerInit` (lines 128-142): the returned option is the Go `error`. -/
def packerInit (h : Host) (resourceState : resourceImageType) (fx : Effects) :
    Option String × Effects :=
  let (res, fx) := runCommand h (packerInitInvocation h resourceState) fx
  match res.err with
  | some err => (some (Wrap err ("could not run packer command; output: " ++ res.output)), fx)
  | none => (none, fx)

/-- Go function `packerBuild` (lines 144-164). -/
def packerBuild (h : Host) (resourceState : resourceImageType) (fx : Effects) :
    Option String × Effects :=
  let (res, fx) := runCommand h (packerBuildInvocation h resourceState) fx
  match res.err with
  | some err => (some (Wrap err ("could not run packer command; output: " ++ res.output)), fx)
  | none => (none, fx)

/-! ## Identity and version stamping -/

/-- Go function `updateState` (lines 166-173).  The struct is mutated in place in Go; here
the new struct is returned together with the (always `nil`) error. -/
def updateState (h : Host) (resourceState : resourceImageType) (fx : Effects) :
    Option String × resourceImageType × Effects :=
  let (resourceState, fx) :=
    if resourceState.ID.Unknown then
      let (u, fx) := newUUIDString h fx
      ({ resourceState with ID := { Value := u } }, fx)
    else (resourceState, fx)
  let (u, fx) := newUUIDString h fx
  (none, { resourceState with BuildUUID := { Value := u } }, fx)

/-! ## Lifecycle operations

Each operation is modelled from the point where the framework has decoded the
request into the Go struct (`req.Config.Get`, `req.State.Get`, `req.Plan.Get`
reported no error), and `resp.State.Set` stores the struct it is given. -/

/-- Go function `Create` (lines 175-204), on the struct decoded from `req.Config`. -/
def Create (h : Host) (resourceState : resourceImageType) (fx : Effects) :
    Response × Effects :=
  match packerInit h resourceState fx with
  | (some err, fx) => ({ Diagnostics := [⟨"Failed to run packer init", err⟩] }, fx)
  | (none, fx) =>
    match packerBuild h resourceState fx with
    | (some err, fx) => ({ Diagnostics := [⟨"Failed to run packer build", err⟩] }, fx)
    | (none, fx) =>
      match updateState h resourceState fx with
      | (some err, _, fx) => ({ Diagnostics := [⟨"Failed to run packer", err⟩] }, fx)
      | (none, resourceState, fx) => ({ State := StateWrite.set resourceState }, fx)

/-- Go function `Read` (lines 206-219), on the struct decoded from `req.State`. -/
def Read (resourceState : resourceImageType) (fx : Effects) : Response × Effects :=
  ({ State := StateWrite.set resourceState }, fx)

/-- Go function `Update` (lines 221-257), on the structs decoded from `req.Plan` and
`req.State`.  The prior state is decoded and then never read. -/
def Update (h : Host) (plan _resourceState : resourceImageType) (fx : Effects) :
    Response × Effects :=
  match packerInit h plan fx with
  | (some err, fx) => ({ Diagnostics := [⟨"Failed to run packer init", err⟩] }, fx)
  | (none, fx) =>
    match packerBuild h plan fx with
    | (some err, fx) => ({ Diagnostics := [⟨"Failed to run packer build", err⟩] }, fx)
    | (none, fx) =>
      match updateState h plan fx with
      | (some err, _, fx) => ({ Diagnostics := [⟨"Failed to run packer", err⟩] }, fx)
      | (none, plan, fx) => ({ State := StateWrite.set plan }, fx)

/-- Go function `Delete` (lines 259-268), on the struct decoded from `req.State`. -/
def Delete (_state : resourceImageType) (fx : Effects) : Response × Effects :=
  ({ State := StateWrite.removed }, fx)

/-! ## Vocabulary of the properties -/

/-- The two arguments a variable contributes: `-var` and `key=value`. -/
def varArgs (kv : String × String) : List String := ["-var", kv.1 ++ "=" ++ kv.2]

/-- The string `o` occurs in `s`. -/
def Contains (s o : String) : Prop := ∃ a b : String, s = a ++ o ++ b

/-- The position of the definition path in the build argument vector: after
`build`, two elements per variable, and the force flag when present. -/
def buildPathIndex (resourceState : resourceImageType) : Nat :=
  1 + 2 * resourceState.Variables.length + (if resourceState.Force.Value then 1 else 0)

/-! ## Example hosts and declarations -/

/-- A host whose commands all succeed with empty output. -/
def okHost : Host where
  exe := "/usr/bin/terraform-provider-packer"
  EnvVars := fun declared _ => declared
  RunCommand := fun _ _ => { output := "", err := none }
  NewRandom := fun n =>
    match n with
    | 0 => "3f2c1a9e-0000-4000-8000-000000000001"
    | _ => "3f2c1a9e-0000-4000-8000-000000000002"

/-- A host whose commands all fail with output `boom`. -/
def boomHost : Host where
  exe := "/usr/bin/terraform-provider-packer"
  EnvVars := fun declared _ => declared
  RunCommand := fun _ _ => { output := "boom", err := some "exit status 1" }
  NewRandom := fun _ => "3f2c1a9e-0000-4000-8000-000000000001"

/-- A host whose first command succeeds and whose later commands fail with
output `boom`. -/
def boomOnBuildHost : Host where
  exe := "/usr/bin/terraform-provider-packer"
  EnvVars := fun declared _ => declared
  RunCommand := fun earlier _ =>
    match earlier with
    | [] => { output := "", err := none }
    | _ => { output := "boom", err := some "exit status 1" }
  NewRandom := fun _ => "3f2c1a9e-0000-4000-8000-000000000001"

/-- A declaration with two variables, visited in the order `a`, `b`. -/
def declAB : resourceImageType :=
  { Variables := [("a", "1"), ("b", "2")], File := { Value := "image.pkr.hcl" } }

/-- The same declaration with the same two variables visited in the order `b`, `a`. -/
def declBA : resourceImageType :=
  { Variables := [("b", "2"), ("a", "1")], File := { Value := "image.pkr.hcl" } }

/-- A declaration without force whose additional parameters carry `-force`. -/
def declExtraForce : resourceImageType :=
  { AdditionalParams := ["-force"] }

/-- A declaration as `req.Config` yields it before the first creation: the
computed attributes `id` and `build_uuid` are null. -/
def declNullID : resourceImageType :=
  { ID := { Null := true }, BuildUUID := { Null := true } }

/-- A plan for an update: the computed attributes are unknown. -/
def planUnknownID : resourceImageType :=
  { ID := { Unknown := true }, BuildUUID := { Unknown := true }, Force := { Value := true } }

/-- A prior state of an earlier creation. -/
def priorState : resourceImageType :=
  { ID := { Value := "id-prior" }, BuildUUID := { Value := "build-prior" } }

/-- The declaration `declAB` under another name, with triggers, an identity and
a version marker. -/
def declABNamed : resourceImageType :=
  { declAB with Name := { Value := "web" }, Triggers := [("rev", "7")],
                ID := { Value := "id-prior" }, BuildUUID := { Value := "build-prior" } }

/-- The declaration `declBA`, whose variables are visited in the order `b`,
`a`, under a name. -/
def declBANamed : resourceImageType :=
  { declBA with Name := { Value := "web" } }

/-- The state a first update of `priorState` with the plan `planUnknownID`
stores on `okHost`. -/
def stateAfterFirstUpdate : resourceImageType :=
  { planUnknownID with ID := { Value := okHost.NewRandom 0 },
                       BuildUUID := { Value := okHost.NewRandom 1 } }

/-- The state a second update, of `stateAfterFirstUpdate` with the same plan,
stores on `okHost`. -/
def stateAfterSecondUpdate : resourceImageType :=
  { planUnknownID with ID := { Value := okHost.NewRandom 2 },
                       BuildUUID := { Value := okHost.NewRandom 3 } }

/-- A declaration whose file is null. -/
def declNullFile : resourceImageType :=
  { File := { Null := true } }

/-- A declaration whose directory is null. -/
def declNullDir : resourceImageType :=
  { Directory := { Null := true } }

/-! ## Helper lemmas -/

theorem string_length_beq_zero (s : String) : (s.length == 0) = decide (s = "") := by
  cases s with
  | mk data =>
    cases data with
    | nil => rfl
    | cons c cs =>
      have hne : (String.mk (c :: cs)) ≠ "" := by
        intro hh
        have := congrArg String.data hh
        simp at this
      simp [String.length, hne]

theorem getFileParam_eq (rs : resourceImageType) :
    getFileParam rs = if rs.File.Null = true ∨ rs.File.Value = "" then "." else rs.File.Value := by
  unfold getFileParam
  rw [string_length_beq_zero]
  by_cases h1 : rs.File.Null = true <;> by_cases h2 : rs.File.Value = "" <;> simp [h1, h2]

theorem getDir_eq (dir : TFString) :
    getDir dir = if dir.Unknown = true ∨ dir.Value = "" then "." else dir.Value := by
  unfold getDir
  simp only [string_length_beq_zero]
  by_cases h1 : dir.Unknown = true <;> by_cases h2 : dir.Value = "" <;> simp [h1, h2]

theorem foldl_varArgs (vars : GoMap) (acc : List String) :
    vars.foldl (fun params kv => params ++ ["-var", kv.1 ++ "=" ++ kv.2]) acc
      = acc ++ vars.flatMap varArgs := by
  induction vars generalizing acc with
  | nil => simp
  | cons kv rest ih => simp [List.foldl_cons, ih, varArgs, List.flatMap_cons]

theorem packerBuildParams_eq (rs : resourceImageType) :
    packerBuildParams rs
      = ["build"] ++ rs.Variables.flatMap varArgs
          ++ (if rs.Force.Value = true then ["-force"] else [])
          ++ [getFileParam rs] ++ rs.AdditionalParams := by
  unfold packerBuildParams
  simp only [foldl_varArgs]
  by_cases hf : rs.Force.Value = true <;> simp [hf]

theorem length_flatMap_varArgs (vars : GoMap) :
    (vars.flatMap varArgs).length = 2 * vars.length := by
  induction vars with
  | nil => simp
  | cons kv rest ih => simp [List.flatMap_cons, varArgs, ih]; omega

theorem packerInit_calls (h : Host) (rs : resourceImageType) (fx : Effects) :
    (packerInit h rs fx).2 = { fx with calls := fx.calls ++ [packerInitInvocation h rs] } := by
  unfold packerInit runCommand
  dsimp only
  split <;> rfl

theorem packerBuild_calls (h : Host) (rs : resourceImageType) (fx : Effects) :
    (packerBuild h rs fx).2 = { fx with calls := fx.calls ++ [packerBuildInvocation h rs] } := by
  unfold packerBuild runCommand
  dsimp only
  split <;> rfl

theorem packerInit_fail (h : Host) (rs : resourceImageType) (fx : Effects) (o e : String)
    (hrun : h.RunCommand fx.calls (packerInitInvocation h rs) = ⟨o, some e⟩) :
    packerInit h rs fx
      = (some (Wrap e ("could not run packer command; output: " ++ o)),
         { fx with calls := fx.calls ++ [packerInitInvocation h rs] }) := by
  simp [packerInit, runCommand, hrun]

theorem packerInit_ok (h : Host) (rs : resourceImageType) (fx : Effects)
    (hrun : (h.RunCommand fx.calls (packerInitInvocation h rs)).err = none) :
    packerInit h rs fx = (none, { fx with calls := fx.calls ++ [packerInitInvocation h rs] }) := by
  simp [packerInit, runCommand, hrun]

theorem packerBuild_fail (h : Host) (rs : resourceImageType) (fx : Effects) (o e : String)
    (hrun : h.RunCommand fx.calls (packerBuildInvocation h rs) = ⟨o, some e⟩) :
    packerBuild h rs fx
      = (some (Wrap e ("could not run packer command; output: " ++ o)),
         { fx with calls := fx.calls ++ [packerBuildInvocation h rs] }) := by
  simp [packerBuild, runCommand, hrun]

theorem packerBuild_ok (h : Host) (rs : resourceImageType) (fx : Effects)
    (hrun : (h.RunCommand fx.calls (packerBuildInvocation h rs)).err = none) :
    packerBuild h rs fx = (none, { fx with calls := fx.calls ++ [packerBuildInvocation h rs] }) := by
  simp [packerBuild, runCommand, hrun]

theorem contains_wrapped_output (e m o : String) : Contains (Wrap e (m ++ o)) o := by
  refine ⟨m, ": " ++ e, ?_⟩
  simp [Wrap, String.append_assoc]

theorem updateState_unknown (h : Host) (rs : resourceImageType) (fx : Effects)
    (hid : rs.ID.Unknown = true) :
    updateState h rs fx
      = (none,
         { rs with ID := { Value := h.NewRandom fx.draws },
                   BuildUUID := { Value := h.NewRandom (fx.draws + 1) } },
         { fx with draws := fx.draws + 2 }) := by
  simp [updateState, newUUIDString, hid]

theorem updateState_known (h : Host) (rs : resourceImageType) (fx : Effects)
    (hid : rs.ID.Unknown = false) :
    updateState h rs fx
      = (none, { rs with BuildUUID := { Value := h.NewRandom fx.draws } },
         { fx with draws := fx.draws + 1 }) := by
  simp [updateState, newUUIDString, hid]

/-- Every call of `updateState` draws from the generator. -/
theorem updateState_draws (h : Host) (rs : resourceImageType) (fx : Effects) :
    fx.draws < (updateState h rs fx).2.2.draws := by
  cases hid : rs.ID.Unknown
  · rw [updateState_known h rs fx hid]; simp
  · rw [updateState_unknown h rs fx hid]; simp

theorem var_arg_ne_force (k v : String) : k ++ "=" ++ v ≠ "-force" := by
  intro hh
  have hdata := congrArg String.data hh
  simp at hdata
  have hmem : '=' ∈ k.data ++ '=' :: v.data := by simp
  rw [hdata] at hmem
  revert hmem
  decide

theorem force_not_in_varArgs (vars : GoMap) : "-force" ∉ vars.flatMap varArgs := by
  intro hmem
  rw [List.mem_flatMap] at hmem
  obtain ⟨kv, _, hkv⟩ := hmem
  simp only [varArgs, List.mem_cons, List.mem_singleton, List.not_mem_nil, or_false] at hkv
  rcases hkv with hkv | hkv
  · revert hkv; decide
  · exact var_arg_ne_force kv.1 kv.2 hkv.symm

/-! ## The build argument vector -/

/-- C1: the argument vector that `packerBuild` passes to the subprocess is
exactly `build`, then `-var` and `k=v` for each variable in the order the map
is iterated, then `-force` exactly when force is true, then the definition
path (the file, or `.` when the file is null or empty), then the additional
parameters in their given order; and that invocation is the one call
`packerBuild` makes. -/
theorem packerBuild_argument_vector (h : Host) (rs : resourceImageType) (fx : Effects) :
    (packerBuildInvocation h rs).params
        = ["build"]
          ++ rs.Variables.flatMap (fun kv => ["-var", kv.1 ++ "=" ++ kv.2])
          ++ (if rs.Force.Value = true then ["-force"] else [])
          ++ [if rs.File.Null = true ∨ rs.File.Value = "" then "." else rs.File.Value]
          ++ rs.AdditionalParams
    ∧ (packerBuild h rs fx).2.calls = fx.calls ++ [packerBuildInvocation h rs] := by
  refine ⟨?_, ?_⟩
  · show packerBuildParams rs = _
    rw [packerBuildParams_eq, getFileParam_eq]
    rfl
  · rw [packerBuild_calls]

/-- C2, as stated, fails: two declarations with the same variables (`a=1` and
`b=2`) and all other fields equal, whose maps are iterated in different
orders, get different build argument vectors, and the second one is not in
ascending key order. -/
theorem packerBuild_order_counterexample :
    declAB.Variables.Perm declBA.Variables
    ∧ { declBA with Variables := declAB.Variables } = declAB
    ∧ packerBuildParams declAB ≠ packerBuildParams declBA
    ∧ packerBuildParams declBA = ["build", "-var", "b=2", "-var", "a=1", "image.pkr.hcl"] := by
  decide

/-- C2, amended: the `-var` pairs are emitted in the iteration order of the
variables map.  Two declarations with the same variables content and equal
force, file and additional parameters get vectors that agree outside the
block of `-var` pairs, whose pairs are the same up to order; the vectors are
identical when the iteration orders coincide. -/
theorem packerBuild_vars_in_iteration_order (rs rs' : resourceImageType)
    (hvars : rs.Variables.Perm rs'.Variables)
    (hforce : rs.Force = rs'.Force) (hfile : rs.File = rs'.File)
    (hadd : rs.AdditionalParams = rs'.AdditionalParams) :
    ∃ rest : List String,
      packerBuildParams rs = "build" :: (rs.Variables.flatMap varArgs ++ rest)
      ∧ packerBuildParams rs' = "build" :: (rs'.Variables.flatMap varArgs ++ rest)
      ∧ (rs.Variables.map varArgs).Perm (rs'.Variables.map varArgs)
      ∧ (rs.Variables = rs'.Variables → packerBuildParams rs = packerBuildParams rs') := by
  refine ⟨(if rs.Force.Value = true then ["-force"] else [])
            ++ [getFileParam rs] ++ rs.AdditionalParams, ?_, ?_, hvars.map varArgs, ?_⟩
  · rw [packerBuildParams_eq]; simp
  · have hfp : getFileParam rs' = getFileParam rs := by simp [getFileParam, hfile]
    rw [packerBuildParams_eq, hfp, ← hforce, ← hadd]; simp
  · intro heq
    have hfp : getFileParam rs' = getFileParam rs := by simp [getFileParam, hfile]
    rw [packerBuildParams_eq, packerBuildParams_eq, hfp, ← hforce, ← hadd, heq]

/-- Witness of the amended C2 at the two example declarations. -/
theorem packerBuild_vars_in_iteration_order_witness :
    declAB.Variables.Perm declBA.Variables
    ∧ ∃ rest : List String,
      packerBuildParams declAB = "build" :: (declAB.Variables.flatMap varArgs ++ rest)
      ∧ packerBuildParams declBA = "build" :: (declBA.Variables.flatMap varArgs ++ rest)
      ∧ (declAB.Variables.map varArgs).Perm (declBA.Variables.map varArgs)
      ∧ (declAB.Variables = declBA.Variables →
          packerBuildParams declAB = packerBuildParams declBA) :=
  ⟨by decide, packerBuild_vars_in_iteration_order declAB declBA (by decide) rfl rfl rfl⟩

/-- C3, as stated, fails: without force, a declaration whose additional
parameters contain `-force` gets a build argument vector that contains
`-force`. -/
theorem force_flag_counterexample :
    declExtraForce.Force.Value = false ∧ "-force" ∈ packerBuildParams declExtraForce := by
  decide

/-- C3, amended: the build argument vector contains `-force` exactly when
force is true, or the definition path is itself `-force`, or `-force` is one
of the additional parameters; no variable ever contributes it. -/
theorem force_flag_membership (rs : resourceImageType) :
    "-force" ∈ packerBuildParams rs
      ↔ rs.Force.Value = true ∨ getFileParam rs = "-force" ∨ "-force" ∈ rs.AdditionalParams := by
  have hvars := force_not_in_varArgs rs.Variables
  rw [packerBuildParams_eq]
  constructor
  · intro hm
    simp only [List.mem_append] at hm
    rcases hm with (((hm | hm) | hm) | hm) | hm
    · simp at hm
    · exact absurd hm hvars
    · by_cases hf : rs.Force.Value = true
      · exact Or.inl hf
      · simp [hf] at hm
    · exact Or.inr (Or.inl (List.mem_singleton.mp hm).symm)
    · exact Or.inr (Or.inr hm)
  · rintro (hf | hp | ha)
    · simp [hf]
    · simp [hp]
    · simp [ha]

/-! ## Defaults of the definition path and the working directory -/

/-- C8: when the file is null or the empty string, the argument vector of the
call `packerInit` makes is exactly `init`, `.` and the path element of the
vector of the call `packerBuild` makes is `.`; when the file is set to a
non-empty string, `packerInit` passes exactly `init` and that string, and the
path element of the build vector is that string.  The path element is the one
right before the additional parameters, and these calls are the ones the two
functions hand to the command runner. -/
theorem file_param_defaults (h : Host) (rs : resourceImageType) (fx : Effects) :
    ((rs.File.Null = true ∨ rs.File.Value = "") →
        (packerInitInvocation h rs).params = ["init", "."]
        ∧ (packerBuildInvocation h rs).params[buildPathIndex rs]? = some ".")
    ∧ ((rs.File.Null = false ∧ rs.File.Value ≠ "") →
        (packerInitInvocation h rs).params = ["init", rs.File.Value]
        ∧ (packerBuildInvocation h rs).params[buildPathIndex rs]? = some rs.File.Value)
    ∧ (packerBuildInvocation h rs).params.drop (buildPathIndex rs + 1) = rs.AdditionalParams
    ∧ (packerInit h rs fx).2.calls = fx.calls ++ [packerInitInvocation h rs]
    ∧ (packerBuild h rs fx).2.calls = fx.calls ++ [packerBuildInvocation h rs] := by
  have hip : (packerInitInvocation h rs).params = ["init", getFileParam rs] := rfl
  have hbp : (packerBuildInvocation h rs).params = packerBuildParams rs := rfl
  have hlen : (["build"] ++ rs.Variables.flatMap varArgs
      ++ (if rs.Force.Value = true then ["-force"] else [])).length = buildPathIndex rs := by
    rw [List.length_append, List.length_append, length_flatMap_varArgs]
    unfold buildPathIndex
    by_cases hf : rs.Force.Value = true <;> simp [hf]
  have hget : (packerBuildInvocation h rs).params[buildPathIndex rs]?
      = some (getFileParam rs) := by
    rw [hbp, packerBuildParams_eq, List.append_assoc, ← hlen]
    rw [List.getElem?_append_right (Nat.le_refl _)]
    simp
  have hdrop : (packerBuildInvocation h rs).params.drop (buildPathIndex rs + 1)
      = rs.AdditionalParams := by
    have hlen' : (["build"] ++ rs.Variables.flatMap varArgs
        ++ (if rs.Force.Value = true then ["-force"] else [])
        ++ [getFileParam rs]).length = buildPathIndex rs + 1 := by
      rw [List.length_append, hlen]; rfl
    rw [hbp, packerBuildParams_eq, ← hlen', List.drop_left]
  refine ⟨?_, ?_, hdrop, ?_, ?_⟩
  · intro hnull
    have hfp : getFileParam rs = "." := by rw [getFileParam_eq, if_pos hnull]
    exact ⟨by rw [hip, hfp], by rw [hget, hfp]⟩
  · rintro ⟨hnull, hval⟩
    have hfp : getFileParam rs = rs.File.Value := by
      rw [getFileParam_eq, if_neg]
      simp [hnull, hval]
    exact ⟨by rw [hip, hfp], by rw [hget, hfp]⟩
  · rw [packerInit_calls]
  · rw [packerBuild_calls]

/-- Witness of C8 at a declaration whose file is null and at one with a file. -/
theorem file_param_defaults_witness :
    declNullFile.File.Null = true
    ∧ ((packerInitInvocation okHost declNullFile).params = ["init", "."]
      ∧ (packerBuildInvocation okHost declNullFile).params[buildPathIndex declNullFile]?
          = some ".")
    ∧ ((packerInitInvocation okHost declAB).params = ["init", "image.pkr.hcl"]
      ∧ (packerBuildInvocation okHost declAB).params[buildPathIndex declAB]?
          = some "image.pkr.hcl")
    ∧ (packerInit okHost declNullFile {}).2.calls
        = ({} : Effects).calls ++ [packerInitInvocation okHost declNullFile] :=
  ⟨by decide,
   (file_param_defaults okHost declNullFile {}).1 (Or.inl (by decide)),
   (file_param_defaults okHost declAB {}).2.1 ⟨by decide, by decide⟩,
   (file_param_defaults okHost declNullFile {}).2.2.2.1⟩

/-- C9: for every directory value, `getDir` is `.` when the directory is
unknown and when its string is empty, whatever the other fields are, and it is
the directory string itself when the directory is not unknown and its string
is not empty; a null directory, which the framework decodes with the empty
string, therefore resolves to `.` too.  `packerInit` and `packerBuild` each
make their one call in the directory `getDir` gives for the declaration. -/
theorem getDir_resolution (h : Host) (rs : resourceImageType) (fx : Effects)
    (dir : TFString) :
    (dir.Unknown = true → getDir dir = ".")
    ∧ (dir.Value = "" → getDir dir = ".")
    ∧ (dir.Null = true → dir.WellFormed → getDir dir = ".")
    ∧ (dir.Unknown = false → dir.Value ≠ "" → getDir dir = dir.Value)
    ∧ (packerInit h rs fx).2.calls = fx.calls ++ [packerInitInvocation h rs]
    ∧ (packerInitInvocation h rs).dir = getDir rs.Directory
    ∧ (packerBuild h rs fx).2.calls = fx.calls ++ [packerBuildInvocation h rs]
    ∧ (packerBuildInvocation h rs).dir = getDir rs.Directory := by
  refine ⟨?_, ?_, ?_, ?_, ?_, rfl, ?_, rfl⟩
  · intro hu
    rw [getDir_eq, if_pos (Or.inl hu)]
  · intro hv
    rw [getDir_eq, if_pos (Or.inr hv)]
  · intro hn hwf
    rw [getDir_eq, if_pos (Or.inr (hwf (Or.inl hn)))]
  · intro hu hv
    rw [getDir_eq, if_neg]
    simp [hu, hv]
  · rw [packerInit_calls]
  · rw [packerBuild_calls]

/-- Witness of C9 at a declaration whose directory is null, and at an unknown
directory value. -/
theorem getDir_resolution_witness :
    declNullDir.Directory.Null = true
    ∧ declNullDir.Directory.WellFormed
    ∧ getDir declNullDir.Directory = "."
    ∧ getDir { Unknown := true, Value := "builds" } = "."
    ∧ (packerInitInvocation okHost declNullDir).dir = getDir declNullDir.Directory :=
  ⟨by decide, by decide,
    (getDir_resolution okHost declNullDir {} declNullDir.Directory).2.2.1
      (by decide) (by decide),
    (getDir_resolution okHost declNullDir {} { Unknown := true, Value := "builds" }).1 rfl,
    (getDir_resolution okHost declNullDir {} declNullDir.Directory).2.2.2.2.2.1⟩

/-! ## Lifecycle operations -/

theorem Create_ok (h : Host) (rs : resourceImageType) (fx : Effects)
    (hinit : (h.RunCommand fx.calls (packerInitInvocation h rs)).err = none)
    (hbuild : (h.RunCommand (fx.calls ++ [packerInitInvocation h rs])
                (packerBuildInvocation h rs)).err = none) :
    Create h rs fx
      = ({ State := StateWrite.set (updateState h rs
              { fx with calls := fx.calls ++ [packerInitInvocation h rs]
                                  ++ [packerBuildInvocation h rs] }).2.1 },
         (updateState h rs
              { fx with calls := fx.calls ++ [packerInitInvocation h rs]
                                  ++ [packerBuildInvocation h rs] }).2.2) := by
  unfold Create
  rw [packerInit_ok h rs fx hinit]
  dsimp only
  rw [packerBuild_ok h rs _ hbuild]
  dsimp only
  cases hid : rs.ID.Unknown
  · rw [updateState_known h rs _ hid]
  · rw [updateState_unknown h rs _ hid]

theorem Update_ok (h : Host) (plan prior : resourceImageType) (fx : Effects)
    (hinit : (h.RunCommand fx.calls (packerInitInvocation h plan)).err = none)
    (hbuild : (h.RunCommand (fx.calls ++ [packerInitInvocation h plan])
                (packerBuildInvocation h plan)).err = none) :
    Update h plan prior fx
      = ({ State := StateWrite.set (updateState h plan
              { fx with calls := fx.calls ++ [packerInitInvocation h plan]
                                  ++ [packerBuildInvocation h plan] }).2.1 },
         (updateState h plan
              { fx with calls := fx.calls ++ [packerInitInvocation h plan]
                                  ++ [packerBuildInvocation h plan] }).2.2) := by
  unfold Update
  rw [packerInit_ok h plan fx hinit]
  dsimp only
  rw [packerBuild_ok h plan _ hbuild]
  dsimp only
  cases hid : plan.ID.Unknown
  · rw [updateState_known h plan _ hid]
  · rw [updateState_unknown h plan _ hid]

/-- C4, evaluated where the code departs from it: on the declaration that
`req.Config` yields before the first creation, whose identity is null and not
unknown, a `Create` whose two subprocesses succeed returns a state whose
identity is still null, with the empty value; one token is drawn, and it goes
to the version marker. -/
theorem Create_leaves_null_identity :
    declNullID.ID.Null = true
    ∧ declNullID.ID.Unknown = false
    ∧ (okHost.RunCommand [] (packerInitInvocation okHost declNullID)).err = none
    ∧ (okHost.RunCommand [packerInitInvocation okHost declNullID]
          (packerBuildInvocation okHost declNullID)).err = none
    ∧ (Create okHost declNullID {}).1
        = { Diagnostics := [],
            State := StateWrite.set
              { declNullID with BuildUUID := { Value := okHost.NewRandom 0 } } }
    ∧ ({ declNullID with BuildUUID := { Value := okHost.NewRandom 0 } }
          : resourceImageType).ID = { Null := true, Value := "" }
    ∧ ({ declNullID with BuildUUID := { Value := okHost.NewRandom 0 } }
          : resourceImageType).ID.Value ≠ okHost.NewRandom 0
    ∧ (Create okHost declNullID {}).2.draws = 1 := by
  decide

/-- Whenever the identity of the declaration is not unknown, null included, a
`Create` whose two subprocesses succeed stores the declaration with its
identity as it was and only the version marker stamped. -/
theorem Create_identity_not_unknown (h : Host) (rs : resourceImageType) (fx : Effects)
    (hid : rs.ID.Unknown = false)
    (hinit : (h.RunCommand fx.calls (packerInitInvocation h rs)).err = none)
    (hbuild : (h.RunCommand (fx.calls ++ [packerInitInvocation h rs])
                (packerBuildInvocation h rs)).err = none) :
    (Create h rs fx).1
      = { Diagnostics := [],
          State := StateWrite.set { rs with BuildUUID := { Value := h.NewRandom fx.draws } } }
    ∧ (Create h rs fx).2.draws = fx.draws + 1 := by
  rw [Create_ok h rs fx hinit hbuild, updateState_known h rs _ hid]
  exact ⟨rfl, rfl⟩

/-- C5, evaluated where the code departs from it: on a plan whose identity is
unknown, an `Update` whose two subprocesses succeed stores a token of the
generator as identity, not the identity of the prior state; a second `Update`
of the stored state with the same plan replaces the identity once more. -/
theorem Update_regenerates_identity :
    planUnknownID.ID.Unknown = true
    ∧ (Update okHost planUnknownID priorState {}).1
        = { Diagnostics := [], State := StateWrite.set stateAfterFirstUpdate }
    ∧ stateAfterFirstUpdate.ID ≠ priorState.ID
    ∧ (Update okHost planUnknownID stateAfterFirstUpdate
          (Update okHost planUnknownID priorState {}).2).1
        = { Diagnostics := [], State := StateWrite.set stateAfterSecondUpdate }
    ∧ stateAfterSecondUpdate.ID ≠ stateAfterFirstUpdate.ID := by
  decide

/-- On a plan whose identity is unknown, an `Update` whose two subprocesses
succeed stores the plan with the next two tokens of the generator as identity
and version marker, whatever the prior state is. -/
theorem Update_identity_unknown (h : Host) (plan prior : resourceImageType) (fx : Effects)
    (hid : plan.ID.Unknown = true)
    (hinit : (h.RunCommand fx.calls (packerInitInvocation h plan)).err = none)
    (hbuild : (h.RunCommand (fx.calls ++ [packerInitInvocation h plan])
                (packerBuildInvocation h plan)).err = none) :
    (Update h plan prior fx).1
      = { Diagnostics := [],
          State := StateWrite.set
            { plan with ID := { Value := h.NewRandom fx.draws },
                        BuildUUID := { Value := h.NewRandom (fx.draws + 1) } } } := by
  rw [Update_ok h plan prior fx hinit hbuild, updateState_unknown h plan _ hid]

/-- C6: when the command runner reports failure with captured output `o` on
the init invocation, or on the build invocation after a successful init,
`Create` and `Update` alike return exactly one error diagnostic whose detail
contains `o`, leave the response state untouched and draw nothing from the
generator, whereas every call of `updateState` draws from it; when init fails
the only subprocess call made is the init call, so build is not invoked. -/
theorem subprocess_failure_aborts (h : Host) (rs prior : resourceImageType) (fx : Effects)
    (o e : String) (out : Response × Effects)
    (hout : out = Create h rs fx ∨ out = Update h rs prior fx)
    (hfail :
      h.RunCommand fx.calls (packerInitInvocation h rs) = ⟨o, some e⟩
      ∨ ((h.RunCommand fx.calls (packerInitInvocation h rs)).err = none
          ∧ h.RunCommand (fx.calls ++ [packerInitInvocation h rs])
              (packerBuildInvocation h rs) = ⟨o, some e⟩)) :
    out.1.Diagnostics
        = [⟨if (h.RunCommand fx.calls (packerInitInvocation h rs)).err = none
              then "Failed to run packer build" else "Failed to run packer init",
            Wrap e ("could not run packer command; output: " ++ o)⟩]
    ∧ Contains (Wrap e ("could not run packer command; output: " ++ o)) o
    ∧ out.1.State = StateWrite.untouched
    ∧ out.2.draws = fx.draws
    ∧ (∀ (rs' : resourceImageType) (fx' : Effects),
          fx'.draws < (updateState h rs' fx').2.2.draws)
    ∧ out.2.calls
        = fx.calls ++
          (if (h.RunCommand fx.calls (packerInitInvocation h rs)).err = none
            then [packerInitInvocation h rs, packerBuildInvocation h rs]
            else [packerInitInvocation h rs]) := by
  have hsame : out = Create h rs fx := by
    rcases hout with hc | hu
    · exact hc
    · rw [hu]; rfl
  subst hsame
  rcases hfail with hinit | ⟨hinit, hbuild⟩
  · have herr : ¬ (h.RunCommand fx.calls (packerInitInvocation h rs)).err = none := by
      rw [hinit]; simp
    have hc : Create h rs fx
        = ({ Diagnostics := [⟨"Failed to run packer init",
                Wrap e ("could not run packer command; output: " ++ o)⟩] },
           { fx with calls := fx.calls ++ [packerInitInvocation h rs] }) := by
      unfold Create
      rw [packerInit_fail h rs fx o e hinit]
    rw [hc, if_neg herr, if_neg herr]
    exact ⟨rfl, contains_wrapped_output e _ o, rfl, rfl, updateState_draws h, rfl⟩
  · have hc : Create h rs fx
        = ({ Diagnostics := [⟨"Failed to run packer build",
                Wrap e ("could not run packer command; output: " ++ o)⟩] },
           { fx with calls := fx.calls ++ [packerInitInvocation h rs]
                                ++ [packerBuildInvocation h rs] }) := by
      unfold Create
      rw [packerInit_ok h rs fx hinit]
      dsimp only
      rw [packerBuild_fail h rs _ o e hbuild]
    rw [hc, if_pos hinit, if_pos hinit]
    exact ⟨rfl, contains_wrapped_output e _ o, rfl, rfl, updateState_draws h, by simp⟩

/-- Witness of C6: the runner that fails every command with output `boom`. -/
theorem subprocess_failure_aborts_witness :
    boomHost.RunCommand [] (packerInitInvocation boomHost declAB)
        = ⟨"boom", some "exit status 1"⟩
    ∧ (Create boomHost declAB {}).1.Diagnostics
        = [⟨"Failed to run packer init",
            "could not run packer command; output: boom: exit status 1"⟩]
    ∧ Contains (Wrap "exit status 1" ("could not run packer command; output: " ++ "boom")) "boom"
    ∧ (Create boomHost declAB {}).1.State = StateWrite.untouched
    ∧ (Create boomHost declAB {}).2.draws = 0
    ∧ (Create boomHost declAB {}).2.calls = [packerInitInvocation boomHost declAB] :=
  have hall := subprocess_failure_aborts boomHost declAB priorState {} "boom" "exit status 1"
    (Create boomHost declAB {}) (Or.inl rfl) (Or.inl (by decide))
  ⟨by decide, hall.1, hall.2.1, hall.2.2.1, hall.2.2.2.1, hall.2.2.2.2.2⟩

/-- The build-failure scenario of C6 on a concrete runner: init succeeds, build
fails with output `boom`; both calls are made and nothing is stamped. -/
theorem build_failure_example :
    Update boomOnBuildHost declAB priorState {}
      = ({ Diagnostics := [⟨"Failed to run packer build",
              "could not run packer command; output: boom: exit status 1"⟩],
           State := StateWrite.untouched },
         { calls := [packerInitInvocation boomOnBuildHost declAB,
                     packerBuildInvocation boomOnBuildHost declAB],
           draws := 0 }) := by
  decide

/-- C7: `Read` sets the response state to exactly the persisted state it was
given, reports no diagnostic, and leaves the effects as they were: no
subprocess is invoked and no token is drawn, so the version marker is the one
of the persisted state. -/
theorem Read_passthrough (s : resourceImageType) (fx : Effects) :
    (Read s fx).1.State = StateWrite.set s
    ∧ (Read s fx).1.Diagnostics = []
    ∧ (Read s fx).2 = fx
    ∧ (Read s fx).2.calls = fx.calls
    ∧ (Read s fx).2.draws = fx.draws :=
  ⟨rfl, rfl, rfl, rfl, rfl⟩

/-- C10, as stated, fails: two declarations that differ only in name, and in
the order in which their equal variables maps are visited, make `packerBuild`
pass different argument vectors. -/
theorem name_only_difference_counterexample :
    declAB.Variables.Perm declBANamed.Variables
    ∧ { declBANamed with Name := declAB.Name, Variables := declAB.Variables } = declAB
    ∧ (packerBuildInvocation okHost declAB).params
        ≠ (packerBuildInvocation okHost declBANamed).params := by
  decide

/-- C10, amended: two declarations with the same variables content that agree
on additional parameters, directory, file, environment, the
ignore-environment flag and force, and so differ at most in name, triggers,
identity and version marker, make `packerInit` issue the same invocation with
the same result, and make `packerBuild` issue invocations with the same
executable, directory and environment whose argument vectors agree outside the
block of `-var` pairs, the pairs being the same up to order; when the two
variables maps are visited in the same order the build invocations and their
results are identical. -/
theorem name_not_passed (h : Host) (rs rs' : resourceImageType) (fx : Effects)
    (hvars : rs.Variables.Perm rs'.Variables)
    (hadd : rs.AdditionalParams = rs'.AdditionalParams)
    (hdir : rs.Directory = rs'.Directory)
    (hfile : rs.File = rs'.File)
    (henv : rs.Environment = rs'.Environment)
    (hignore : rs.IgnoreEnvironment = rs'.IgnoreEnvironment)
    (hforce : rs.Force = rs'.Force) :
    packerInitInvocation h rs = packerInitInvocation h rs'
    ∧ packerInit h rs fx = packerInit h rs' fx
    ∧ (packerBuildInvocation h rs).exe = (packerBuildInvocation h rs').exe
    ∧ (packerBuildInvocation h rs).dir = (packerBuildInvocation h rs').dir
    ∧ (packerBuildInvocation h rs).env = (packerBuildInvocation h rs').env
    ∧ (∃ rest : List String,
        (packerBuildInvocation h rs).params
          = "build" :: (rs.Variables.flatMap varArgs ++ rest)
        ∧ (packerBuildInvocation h rs').params
          = "build" :: (rs'.Variables.flatMap varArgs ++ rest))
    ∧ (rs.Variables.map varArgs).Perm (rs'.Variables.map varArgs)
    ∧ (rs.Variables = rs'.Variables →
        packerBuildInvocation h rs = packerBuildInvocation h rs'
        ∧ packerBuild h rs fx = packerBuild h rs' fx) := by
  have hi : packerInitInvocation h rs = packerInitInvocation h rs' := by
    simp [packerInitInvocation, packerInitParams, getFileParam, hdir, hfile, henv, hignore]
  have hfp : getFileParam rs' = getFileParam rs := by simp [getFileParam, hfile]
  refine ⟨hi, ?_, rfl, ?_, ?_, ?_, hvars.map varArgs, ?_⟩
  · simp [packerInit, hi]
  · simp [packerBuildInvocation, hdir]
  · simp [packerBuildInvocation, henv, hignore]
  · refine ⟨(if rs.Force.Value = true then ["-force"] else [])
              ++ [getFileParam rs] ++ rs.AdditionalParams, ?_, ?_⟩
    · show packerBuildParams rs = _
      rw [packerBuildParams_eq]; simp
    · show packerBuildParams rs' = _
      rw [packerBuildParams_eq, hfp, ← hforce, ← hadd]; simp
  · intro heq
    have hb : packerBuildInvocation h rs = packerBuildInvocation h rs' := by
      simp [packerBuildInvocation, packerBuildParams, getFileParam, heq, hadd, hdir, hfile,
        henv, hignore, hforce]
    exact ⟨hb, by simp [packerBuild, hb]⟩

/-- Witness of the amended C10: the example declaration without a name, and
with a name and the other visiting order of its variables. -/
theorem name_not_passed_witness :
    declAB.Name ≠ declBANamed.Name
    ∧ declAB.Variables.Perm declBANamed.Variables
    ∧ packerInitInvocation okHost declAB = packerInitInvocation okHost declBANamed
    ∧ (packerBuildInvocation okHost declAB).dir = (packerBuildInvocation okHost declBANamed).dir
    ∧ (packerBuildInvocation okHost declAB).env = (packerBuildInvocation okHost declBANamed).env
    ∧ (declAB.Variables.map varArgs).Perm (declBANamed.Variables.map varArgs) :=
  have hall := name_not_passed okHost declAB declBANamed {} (by decide) rfl rfl rfl rfl rfl rfl
  ⟨by decide, by decide, hall.1, hall.2.2.2.1, hall.2.2.2.2.1, hall.2.2.2.2.2.2.1⟩

/-- The same name, triggers, identity and version marker added to a declaration
whose variables are visited in the same order leave both invocations as they
were. -/
theorem name_same_order_example :
    packerInitInvocation okHost declAB = packerInitInvocation okHost declABNamed
    ∧ packerBuildInvocation okHost declAB = packerBuildInvocation okHost declABNamed := by
  decide

end PackerProvider
